import Mathlib

/-!
Shallow embedding of the cfssl local signer (`signer/local/local.go`) and
proofs of the specified properties of its signing engine: the subject
reconciler, the host classifier, the CA hierarchy guard inside `sign`, the
`Sign` request pipeline, policy construction/replacement, and the
certificate accessor.

External collaborators (the template filler `signer.FillTemplate`, the
signing primitive `x509.CreateCertificate`, the certificate parser
`x509.ParseCertificate`, the CSR parser `signer.ParseCertificateRequest`,
`pem.Decode` and `net.ParseIP`) are modelled as oracle functions collected
in an `Externals` record: the theorems quantify over their behaviour.
-/

namespace CFSSL

/-- Error categories of the `cferr` package used by this file
(`cferr.PolicyError`, `cferr.CertificateError`). -/
inductive ErrKind where
  | policyError
  | certificateError
  deriving DecidableEq, Repr

/-- Error reasons of the `cferr` package used by this file. -/
inductive ErrReason where
  | invalidPolicy
  | invalidRequest
  | readFailed
  | decodeFailed
  | badRequest
  | unknown
  | parseFailed
  deriving DecidableEq, Repr

/-- A `cferr` error value: category plus reason (the wrapped underlying
error text is not observable to the claims and is omitted). -/
structure CFError where
  kind : ErrKind
  reason : ErrReason
  deriving DecidableEq, Repr

/-- An IP address (`net.IP` is a byte slice in Go). -/
abbrev IP : Type := List Nat

/-- `pkix.Name`: the subject identity fields handled by the local signer. -/
structure PkixName where
  commonName : String
  country : List String
  province : List String
  locality : List String
  organization : List String
  organizationalUnit : List String
  deriving DecidableEq, Repr

/-- The all-empty `pkix.Name`. -/
def PkixName.empty : PkixName :=
  { commonName := ""
    country := []
    province := []
    locality := []
    organization := []
    organizationalUnit := [] }

/-- Modelled from the spec: the subject whitelist of the `signer` package
(not under `src/`): per-field flags controlling which CSR-asserted identity
attributes are retained. -/
structure Whitelist where
  cn : Bool
  c : Bool
  st : Bool
  l : Bool
  o : Bool
  ou : Bool
  deriving DecidableEq, Repr

/-- Modelled from the spec: the `signer.Subject` override structure (not
under `src/`): an optional field-level whitelist and an ordered list of
override identities, of which only the first is consulted. -/
structure Subject where
  whitelist : Option Whitelist
  names : List PkixName
  deriving DecidableEq, Repr

/-- Modelled from the spec: `Subject.Name()` of the `signer` package (not
under `src/`) yields the first override identity of the ordered list. -/
def Subject.Name (s : Subject) : PkixName :=
  s.names.headD PkixName.empty

/-- An `x509.Certificate` template restricted to the fields the local
signer reads or writes. -/
structure Certificate where
  subject : PkixName
  isCA : Bool
  maxPathLen : Int
  dnsNames : List String
  ipAddresses : List IP
  serialNumber : Nat
  publicKey : Nat
  deriving DecidableEq, Repr

/-- Modelled from the spec: `signer.MaxPathLen` (not under `src/`), the
issuance engine's "unconstrained" path-length sentinel for a root. -/
def MaxPathLen : Int := 2

/-- `whitelistString`: blank a string field unless its whitelist flag is
set. -/
def whitelistString (keep : Bool) (field : String) : String :=
  if !keep then "" else field

/-- `whitelistStringSlice`: blank a sequence field unless its whitelist
flag is set. -/
def whitelistStringSlice (keep : Bool) (field : List String) : List String :=
  if !keep then [] else field

/-- `whitelistRequest`: if the subject carries a whitelist, keep only the
explicitly permitted fields of `name`; otherwise `name` is untouched. -/
def whitelistRequest (s : Option Subject) (name : PkixName) : PkixName :=
  match s with
  | none => name
  | some s =>
    match s.whitelist with
    | none => name
    | some w =>
      { commonName := whitelistString w.cn name.commonName
        country := whitelistStringSlice w.c name.country
        province := whitelistStringSlice w.st name.province
        locality := whitelistStringSlice w.l name.locality
        organization := whitelistStringSlice w.o name.organization
        organizationalUnit := whitelistStringSlice w.ou name.organizationalUnit }

/-- `replaceSliceIfEmpty`: the contents of `replaced` are replaced with
`newContents` when `replaced` is empty. -/
def replaceSliceIfEmpty (replaced newContents : List String) : List String :=
  if replaced.length = 0 then newContents else replaced

/-- `PopulateSubjectFromCSR`: merge the CSR-derived identity `req` with an
optional subject override `s`: whitelist first, then the first override
identity wins wherever it is non-empty. -/
def PopulateSubjectFromCSR (s : Option Subject) (req : PkixName) : PkixName :=
  match s with
  | none => req
  | some s =>
    let req := whitelistRequest (some s) req
    if s.names.length = 0 then req
    else
      let name := s.Name
      let name :=
        if name.commonName = "" then { name with commonName := req.commonName } else name
      { name with
        country := replaceSliceIfEmpty name.country req.country
        province := replaceSliceIfEmpty name.province req.province
        locality := replaceSliceIfEmpty name.locality req.locality
        organization := replaceSliceIfEmpty name.organization req.organization
        organizationalUnit := replaceSliceIfEmpty name.organizationalUnit req.organizationalUnit }

/-- One classification step of `OverrideHosts`' loop body: an IP literal is
appended to the IP list, anything else to the DNS list. -/
def classifyHost (parseIP : String → Option IP) (t : Certificate) (h : String) : Certificate :=
  match parseIP h with
  | some ip => { t with ipAddresses := t.ipAddresses ++ [ip] }
  | none => { t with dnsNames := t.dnsNames ++ [h] }

/-- `OverrideHosts`: for a non-nil host list (`some`), reset both SAN lists
and classify each host; for a nil list (`none`), leave the template alone
(the Go `for` loop over a nil slice runs zero times). `net.ParseIP` is
external and passed as an oracle. -/
def OverrideHosts (parseIP : String → Option IP) (template : Certificate)
    (hosts : Option (List String)) : Certificate :=
  let template :=
    match hosts with
    | none => template
    | some _ => { template with ipAddresses := [], dnsNames := [] }
  (hosts.getD []).foldl (classifyHost parseIP) template

/-- A signing profile restricted to the attribute the local signer reads
directly (`UseSerialSeq`); everything else is consumed by the external
template filler. -/
structure SigningProfile where
  useSerialSeq : Bool
  deriving DecidableEq, Repr

/-- A `config.Signing` policy: named profiles, a default profile, and the
outcome of its (external, `config` package) validity predicate `Valid()`,
recorded as a field of the modelled value. -/
structure Policy where
  profiles : List (String × SigningProfile)
  default : SigningProfile
  valid : Bool
  deriving DecidableEq, Repr

/-- Modelled from the spec: the policy substituted by `NewSigner` when none
is supplied (empty profile mapping, built-in default profile from
`config.DefaultConfig()`, which is valid). -/
def defaultSubstitutedPolicy : Policy :=
  { profiles := [], default := { useSerialSeq := false }, valid := true }

/-- The local `Signer`: CA certificate (`nil` before root bootstrap),
signing-key capability (abstract), policy, and signature algorithm tag. -/
structure Signer where
  ca : Option Certificate
  priv : Nat
  policy : Policy
  sigAlgo : Nat
  deriving DecidableEq, Repr

/-- `NewSigner`: substitute a default policy when none is given, then
reject an invalid policy with `PolicyError/InvalidPolicy`. -/
def NewSigner (priv : Nat) (cert : Option Certificate) (sigAlgo : Nat)
    (policy : Option Policy) : Except CFError Signer :=
  let policy := policy.getD defaultSubstitutedPolicy
  if !policy.valid then
    .error { kind := .policyError, reason := .invalidPolicy }
  else
    .ok { ca := cert, priv := priv, policy := policy, sigAlgo := sigAlgo }

/-- `Signer.SetPolicy`: replaces the signer's policy (the Go setter assigns
`s.policy = policy` with no further checks). -/
def Signer.SetPolicy (s : Signer) (policy : Policy) : Signer :=
  { s with policy := policy }

/-- `Signer.Policy`: returns the signer's policy. -/
def Signer.PolicyOf (s : Signer) : Policy :=
  s.policy

/-- A PEM block (`pem.Block`): declared type and raw bytes. -/
structure PemBlock where
  type : String
  bytes : List Nat
  deriving DecidableEq, Repr

/-- The external collaborators of the engine, as oracles:
`signer.FillTemplate`, `x509.CreateCertificate` (template, issuer; the
random source, public key and private key do not vary in the model),
`x509.ParseCertificate`, `signer.ParseCertificateRequest`, `pem.Decode`
(first block or none), and `net.ParseIP`. -/
structure Externals where
  fillTemplate : Certificate → SigningProfile → SigningProfile → String → Except CFError Certificate
  createCertificate : Certificate → Certificate → Option (List Nat)
  parseCertificate : List Nat → Option Certificate
  parseCertificateRequest : List Nat → Except CFError Certificate
  pemDecode : List Nat → Option PemBlock
  parseIP : String → Option IP

/-- The observable result of one `sign` call: the returned value or error,
the signer state at return, the final value of the in-place mutated
template, and the issuer handed to the signing primitive (`none` when the
primitive was never reached). -/
structure SignOutcome where
  result : Except CFError PemBlock
  state : Signer
  template : Certificate
  issuer : Option Certificate
  deriving Repr

/-- `Signer.sign`: fill the template, run the CA hierarchy guard, invoke
the signing primitive, complete a root bootstrap by re-parsing, and PEM
encode.  In the bootstrap arm the Go code executes `template.DNSNames =
nil; s.ca = template; template.MaxPathLen = signer.MaxPathLen`: `s.ca`
aliases `template`, so at every later observation point `s.ca` carries the
fully mutated template — the model assigns the mutated value once. On a
re-parse failure the Go multiple assignment `s.ca, err =
x509.ParseCertificate(derBytes)` stores the nil certificate returned
alongside the error. -/
def Signer.sign (ext : Externals) (s : Signer) (template : Certificate)
    (profile : SigningProfile) (serialSeq : String) : SignOutcome :=
  match ext.fillTemplate template s.policy.default profile serialSeq with
  | .error e => { result := .error e, state := s, template := template, issuer := none }
  | .ok t1 =>
    match s.ca with
    | none =>
      if !t1.isCA then
        { result := .error { kind := .policyError, reason := .invalidRequest }
          state := s, template := t1, issuer := none }
      else
        let t2 := { t1 with dnsNames := [], maxPathLen := MaxPathLen }
        let s1 := { s with ca := some t2 }
        match ext.createCertificate t2 t2 with
        | none =>
          { result := .error { kind := .certificateError, reason := .unknown }
            state := s1, template := t2, issuer := some t2 }
        | some derBytes =>
          match ext.parseCertificate derBytes with
          | none =>
            { result := .error { kind := .certificateError, reason := .parseFailed }
              state := { s1 with ca := none }, template := t2, issuer := some t2 }
          | some parsed =>
            { result := .ok { type := "CERTIFICATE", bytes := derBytes }
              state := { s1 with ca := some parsed }, template := t2, issuer := some t2 }
    | some caCert =>
      let t2 := if t1.isCA then { t1 with maxPathLen := 1, dnsNames := [] } else t1
      match ext.createCertificate t2 caCert with
      | none =>
        { result := .error { kind := .certificateError, reason := .unknown }
          state := s, template := t2, issuer := some caCert }
      | some derBytes =>
        { result := .ok { type := "CERTIFICATE", bytes := derBytes }
          state := s, template := t2, issuer := some caCert }

/-- A `signer.SignRequest`: raw request bytes, profile name, optional host
list (`none` models a nil Go slice), optional subject override, and the
serial-sequence hint. -/
structure SignRequest where
  request : List Nat
  profile : String
  hosts : Option (List String)
  subject : Option Subject
  serialSeq : String
  deriving Repr

/-- Go map lookup `s.policy.Profiles[req.Profile]` over the modelled
association list. -/
def lookupProfile (ps : List (String × SigningProfile)) (name : String) :
    Option SigningProfile :=
  (ps.find? (fun p => p.fst = name)).map Prod.snd

/-- `Signer.Sign`: resolve the profile (falling back to the default),
honour the serial-sequence hint only if the profile allows it, PEM-decode
and type-check the request, parse the CSR into a template, apply
`OverrideHosts` and `PopulateSubjectFromCSR`, and delegate to `sign`. -/
def Signer.Sign (ext : Externals) (s : Signer) (req : SignRequest) :
    Except CFError PemBlock × Signer :=
  let profile := (lookupProfile s.policy.profiles req.profile).getD s.policy.default
  let serialSeq := if profile.useSerialSeq then req.serialSeq else ""
  match ext.pemDecode req.request with
  | none => (.error { kind := .certificateError, reason := .decodeFailed }, s)
  | some block =>
    if block.type ≠ "CERTIFICATE REQUEST" then
      (.error { kind := .certificateError, reason := .badRequest }, s)
    else
      match ext.parseCertificateRequest block.bytes with
      | .error e => (.error e, s)
      | .ok template =>
        let template := OverrideHosts ext.parseIP template req.hosts
        let template := { template with subject := PopulateSubjectFromCSR req.subject template.subject }
        let out := s.sign ext template profile serialSeq
        (out.result, out.state)

/-- Outcome of `Signer.Certificate`, which executes `cert := *s.ca`: a nil
`s.ca` is dereferenced and the process crashes; otherwise a copy of the CA
certificate is returned together with a nil error. -/
inductive CertAccess where
  | nilDeref
  | ok (cert : Certificate) (err : Option CFError)
  deriving DecidableEq, Repr

/-- `Signer.Certificate`: dereferences `s.ca` unconditionally and returns a
copy of it with a nil error; `label` and `profile` are ignored. -/
def Signer.Certificate (s : Signer) (label profile : String) : CertAccess :=
  match s.ca with
  | none => .nilDeref
  | some c => .ok c none

/-!  Concrete fixtures used by counterexamples and witnesses. -/

/-- A concrete policy whose external validity predicate reported false. -/
def invalidPolicy0 : Policy :=
  { profiles := [], default := { useSerialSeq := false }, valid := false }

/-- A bootstrap-ready signer: no CA certificate yet. -/
def signer0 : Signer :=
  { ca := none, priv := 0, policy := defaultSubstitutedPolicy, sigAlgo := 0 }

/-- A concrete CA-requesting template carrying a DNS SAN. -/
def caTemplate0 : Certificate :=
  { subject := PkixName.empty
    isCA := true
    maxPathLen := 0
    dnsNames := ["ca.example.org"]
    ipAddresses := []
    serialNumber := 1
    publicKey := 5 }

/-- The concrete non-CA variant of `caTemplate0`. -/
def leafTemplate0 : Certificate := { caTemplate0 with isCA := false }

/-- A concrete certificate standing for a parsed, freshly signed root. -/
def parsedRoot0 : Certificate :=
  { subject := PkixName.empty
    isCA := true
    maxPathLen := 2
    dnsNames := []
    ipAddresses := []
    serialNumber := 9
    publicKey := 5 }

/-- A signer already holding a CA certificate. -/
def signerCA0 : Signer :=
  { ca := some parsedRoot0, priv := 0, policy := defaultSubstitutedPolicy, sigAlgo := 0 }

/-- The default profile fixture. -/
def profile0 : SigningProfile := { useSerialSeq := false }

/-- Externals whose signing primitive always fails. -/
def extCreateFail : Externals :=
  { fillTemplate := fun t _ _ _ => .ok t
    createCertificate := fun _ _ => none
    parseCertificate := fun _ => none
    parseCertificateRequest := fun _ => .error { kind := .certificateError, reason := .badRequest }
    pemDecode := fun _ => none
    parseIP := fun _ => none }

/-- Externals on which every stage of `sign` succeeds. -/
def extOk : Externals :=
  { fillTemplate := fun t _ _ _ => .ok t
    createCertificate := fun _ _ => some [7, 7]
    parseCertificate := fun _ => some parsedRoot0
    parseCertificateRequest := fun _ => .ok caTemplate0
    pemDecode := fun bytes => some { type := "CERTIFICATE REQUEST", bytes := bytes }
    parseIP := fun _ => none }

/-- Externals whose PEM decoder fails on empty input and otherwise yields a
block of type "CERTIFICATE". -/
def extDecode0 : Externals :=
  { fillTemplate := fun t _ _ _ => .ok t
    createCertificate := fun _ _ => some [1]
    parseCertificate := fun _ => none
    parseCertificateRequest := fun _ => .error { kind := .certificateError, reason := .badRequest }
    pemDecode := fun bytes =>
      if bytes = [] then none else some { type := "CERTIFICATE", bytes := bytes }
    parseIP := fun _ => none }

/-- A request with empty (undecodable) bytes. -/
def req0 : SignRequest :=
  { request := [], profile := "", hosts := none, subject := none, serialSeq := "" }

/-- A request whose bytes decode to a block of the wrong PEM type. -/
def req1 : SignRequest :=
  { request := [3], profile := "", hosts := none, subject := none, serialSeq := "" }

/-!  Theorems. -/

/-- Accumulator-generalised behaviour of the classification loop of
`OverrideHosts`: IP literals are appended to the IP list and all other
hosts to the DNS list, in input order. -/
theorem foldl_classifyHost_spec (p : String → Option IP) :
    ∀ (l : List String) (t : Certificate),
      (l.foldl (classifyHost p) t).ipAddresses = t.ipAddresses ++ l.filterMap p ∧
      (l.foldl (classifyHost p) t).dnsNames =
        t.dnsNames ++ l.filter (fun h => (p h).isNone) := by
  intro l
  induction l with
  | nil => intro t; simp
  | cons h rest ih =>
    intro t
    rcases hp : p h with _ | ip <;>
      simp [classifyHost, hp, ih, List.filter_cons, List.filterMap_cons]

/-- C8: for a non-nil host list, `OverrideHosts` replaces both SAN lists of
the template: every host parsing as an IP literal lands in the IP-address
list and every other host in the DNS-name list, each in input order; for a
nil host list the template is returned unchanged. -/
theorem OverrideHosts_spec (p : String → Option IP) (template : Certificate)
    (l : List String) :
    OverrideHosts p template none = template ∧
    (OverrideHosts p template (some l)).ipAddresses = l.filterMap p ∧
    (OverrideHosts p template (some l)).dnsNames =
      l.filter (fun h => (p h).isNone) := by
  refine ⟨rfl, ?_, ?_⟩ <;>
    simp [OverrideHosts, foldl_classifyHost_spec]

/-- C6: when the subject override carries at least one override identity,
the merge takes the first override identity and substitutes the (possibly
whitelisted) CSR value into each of its fields exactly when that override
field is empty; a non-empty override field wins. -/
theorem PopulateSubjectFromCSR_precedence (wl : Option Whitelist)
    (n : PkixName) (rest : List PkixName) (req : PkixName) :
    (PopulateSubjectFromCSR (some ⟨wl, n :: rest⟩) req).commonName =
      (if n.commonName = "" then (whitelistRequest (some ⟨wl, n :: rest⟩) req).commonName
       else n.commonName) ∧
    (PopulateSubjectFromCSR (some ⟨wl, n :: rest⟩) req).country =
      (if n.country = [] then (whitelistRequest (some ⟨wl, n :: rest⟩) req).country
       else n.country) ∧
    (PopulateSubjectFromCSR (some ⟨wl, n :: rest⟩) req).province =
      (if n.province = [] then (whitelistRequest (some ⟨wl, n :: rest⟩) req).province
       else n.province) ∧
    (PopulateSubjectFromCSR (some ⟨wl, n :: rest⟩) req).locality =
      (if n.locality = [] then (whitelistRequest (some ⟨wl, n :: rest⟩) req).locality
       else n.locality) ∧
    (PopulateSubjectFromCSR (some ⟨wl, n :: rest⟩) req).organization =
      (if n.organization = [] then (whitelistRequest (some ⟨wl, n :: rest⟩) req).organization
       else n.organization) ∧
    (PopulateSubjectFromCSR (some ⟨wl, n :: rest⟩) req).organizationalUnit =
      (if n.organizationalUnit = []
       then (whitelistRequest (some ⟨wl, n :: rest⟩) req).organizationalUnit
       else n.organizationalUnit) := by
  simp only [PopulateSubjectFromCSR, Subject.Name, List.headD, List.length_cons]
  by_cases hcn : n.commonName = "" <;>
    refine ⟨?_, ?_, ?_, ?_, ?_, ?_⟩ <;>
      simp [hcn, replaceSliceIfEmpty, List.length_eq_zero]

/-- C7: an absent subject override leaves the CSR identity unchanged; a
present whitelist blanks exactly the fields whose flag is false; an absent
whitelist retains every CSR field; and the whitelist is applied to the CSR
identity before any override identity is consulted. -/
theorem PopulateSubjectFromCSR_whitelist (req : PkixName) (w : Whitelist)
    (names : List PkixName) (s : Subject) :
    PopulateSubjectFromCSR none req = req ∧
    whitelistRequest (some ⟨some w, names⟩) req =
      { commonName := if w.cn then req.commonName else ""
        country := if w.c then req.country else []
        province := if w.st then req.province else []
        locality := if w.l then req.locality else []
        organization := if w.o then req.organization else []
        organizationalUnit := if w.ou then req.organizationalUnit else [] } ∧
    whitelistRequest (some ⟨none, names⟩) req = req ∧
    PopulateSubjectFromCSR (some s) req =
      PopulateSubjectFromCSR (some ⟨none, s.names⟩) (whitelistRequest (some s) req) := by
  refine ⟨rfl, ?_, rfl, ?_⟩
  · simp only [whitelistRequest, whitelistString, whitelistStringSlice]
    cases w.cn <;> cases w.c <;> cases w.st <;> cases w.l <;> cases w.o <;> cases w.ou <;> simp
  · rcases s with ⟨wl, names'⟩
    simp [PopulateSubjectFromCSR, whitelistRequest, Subject.Name]

/-- C5 counterexample: the policy setter stores a policy whose validity
predicate is false, without any rejection — the claim that the predicate is
consulted at every policy replacement is false. -/
theorem SetPolicy_accepts_invalid_policy :
    (signer0.SetPolicy invalidPolicy0).policy = invalidPolicy0 ∧
    invalidPolicy0.valid = false :=
  ⟨rfl, rfl⟩

/-- C5 amended: the validity predicate is consulted at construction —
`NewSigner` rejects an invalid policy with `PolicyError/InvalidPolicy` and
accepts a valid one — while `SetPolicy` replaces the policy unconditionally
without consulting the predicate. -/
theorem policy_validity_checked_at_construction_only (priv sigAlgo : Nat)
    (cert : Option Certificate) (p : Policy) (s : Signer) (q : Policy) :
    NewSigner priv cert sigAlgo (some { p with valid := false }) =
      .error { kind := .policyError, reason := .invalidPolicy } ∧
    NewSigner priv cert sigAlgo (some { p with valid := true }) =
      .ok { ca := cert, priv := priv, policy := { p with valid := true }, sigAlgo := sigAlgo } ∧
    (s.SetPolicy q).policy = q :=
  ⟨rfl, rfl, rfl⟩

/-- C10: `Signer.Certificate` unconditionally dereferences the stored CA
certificate — a signer without one crashes on a nil dereference, and a
signer holding one returns a copy of it with a nil error, for any label and
profile arguments. -/
theorem Certificate_accessor_derefs_ca (priv sigAlgo : Nat) (pol : Policy)
    (c : Certificate) (label profile : String) :
    Signer.Certificate { ca := none, priv := priv, policy := pol, sigAlgo := sigAlgo }
      label profile = .nilDeref ∧
    Signer.Certificate { ca := some c, priv := priv, policy := pol, sigAlgo := sigAlgo }
      label profile = .ok c none :=
  ⟨rfl, rfl⟩

/-- C9: a request whose bytes yield no PEM block fails with
`CertificateError/DecodeFailed`; a first block of a declared type other
than "CERTIFICATE REQUEST" fails with `CertificateError/BadRequest`; in
both cases no certificate is produced and the signer is unchanged. -/
theorem Sign_decode_and_type_errors (ext : Externals) (s : Signer) (req : SignRequest) :
    (ext.pemDecode req.request = none →
      s.Sign ext req = (.error { kind := .certificateError, reason := .decodeFailed }, s)) ∧
    (∀ block, ext.pemDecode req.request = some block →
      block.type ≠ "CERTIFICATE REQUEST" →
      s.Sign ext req = (.error { kind := .certificateError, reason := .badRequest }, s)) := by
  constructor
  · intro h
    simp [Signer.Sign, h]
  · intro block hb ht
    simp [Signer.Sign, hb, ht]

/-- C9 witness: concrete undecodable bytes and a concrete "CERTIFICATE"
block exercise both error paths. -/
theorem Sign_decode_and_type_errors_witness :
    signer0.Sign extDecode0 req0 =
      (.error { kind := .certificateError, reason := .decodeFailed }, signer0) ∧
    signer0.Sign extDecode0 req1 =
      (.error { kind := .certificateError, reason := .badRequest }, signer0) :=
  ⟨(Sign_decode_and_type_errors extDecode0 signer0 req0).1 rfl,
   (Sign_decode_and_type_errors extDecode0 signer0 req1).2
     { type := "CERTIFICATE", bytes := [3] } rfl (by decide)⟩

/-- C3: with no CA certificate held and a filled template that does not
request CA status, `sign` fails with `PolicyError/InvalidRequest` and the
CA certificate stays absent. -/
theorem sign_bootstrap_rejection (ext : Externals) (s : Signer) (t t1 : Certificate)
    (profile : SigningProfile) (serialSeq : String)
    (hca : s.ca = none)
    (hfill : ext.fillTemplate t s.policy.default profile serialSeq = .ok t1)
    (hisCA : t1.isCA = false) :
    (s.sign ext t profile serialSeq).result =
      .error { kind := .policyError, reason := .invalidRequest } ∧
    (s.sign ext t profile serialSeq).state.ca = none := by
  simp [Signer.sign, hfill, hca, hisCA]

/-- C3 witness: rejecting a concrete non-CA template on a bootstrap-ready
signer. -/
theorem sign_bootstrap_rejection_witness :
    (signer0.sign extOk leafTemplate0 profile0 "").result =
      .error { kind := .policyError, reason := .invalidRequest } ∧
    (signer0.sign extOk leafTemplate0 profile0 "").state.ca = none :=
  sign_bootstrap_rejection extOk signer0 leafTemplate0 leafTemplate0 profile0 "" rfl rfl rfl

/-- C2: a successful root bootstrap (no CA held, filled template requests
CA status, primitive and re-parse succeed) clears the template's DNS SANs,
sets its path length to the engine's sentinel, uses the template itself as
issuer, and stores the re-parsed certificate as the engine's CA. -/
theorem sign_root_bootstrap (ext : Externals) (s : Signer) (t t1 parsed : Certificate)
    (der : List Nat) (profile : SigningProfile) (serialSeq : String)
    (hca : s.ca = none)
    (hfill : ext.fillTemplate t s.policy.default profile serialSeq = .ok t1)
    (hisCA : t1.isCA = true)
    (hcreate : ext.createCertificate { t1 with dnsNames := [], maxPathLen := MaxPathLen }
      { t1 with dnsNames := [], maxPathLen := MaxPathLen } = some der)
    (hparse : ext.parseCertificate der = some parsed) :
    (s.sign ext t profile serialSeq).result = .ok { type := "CERTIFICATE", bytes := der } ∧
    (s.sign ext t profile serialSeq).template =
      { t1 with dnsNames := [], maxPathLen := MaxPathLen } ∧
    (s.sign ext t profile serialSeq).issuer =
      some { t1 with dnsNames := [], maxPathLen := MaxPathLen } ∧
    (s.sign ext t profile serialSeq).state.ca = some parsed := by
  rw [hisCA] at hcreate
  simp [Signer.sign, hfill, hca, hisCA, hcreate, hparse]

/-- C2 witness: a concrete bootstrap run through the all-success
externals. -/
theorem sign_root_bootstrap_witness :
    (signer0.sign extOk caTemplate0 profile0 "").result =
      .ok { type := "CERTIFICATE", bytes := [7, 7] } ∧
    (signer0.sign extOk caTemplate0 profile0 "").template =
      { caTemplate0 with dnsNames := [], maxPathLen := MaxPathLen } ∧
    (signer0.sign extOk caTemplate0 profile0 "").issuer =
      some { caTemplate0 with dnsNames := [], maxPathLen := MaxPathLen } ∧
    (signer0.sign extOk caTemplate0 profile0 "").state.ca = some parsedRoot0 :=
  sign_root_bootstrap extOk signer0 caTemplate0 caTemplate0 parsedRoot0 [7, 7]
    profile0 "" rfl rfl rfl rfl rfl

/-- C4: with a CA certificate held and a filled template requesting CA
status, the template handed to the signing primitive always carries path
length exactly 1 and an empty DNS SAN list. -/
theorem sign_intermediate_constraints (ext : Externals) (s : Signer) (t t1 c : Certificate)
    (profile : SigningProfile) (serialSeq : String)
    (hca : s.ca = some c)
    (hfill : ext.fillTemplate t s.policy.default profile serialSeq = .ok t1)
    (hisCA : t1.isCA = true) :
    (s.sign ext t profile serialSeq).template.maxPathLen = 1 ∧
    (s.sign ext t profile serialSeq).template.dnsNames = [] := by
  rcases hcc : ext.createCertificate { t1 with maxPathLen := 1, dnsNames := [] } c
    with _ | der <;>
  · rw [hisCA] at hcc
    simp [Signer.sign, hfill, hca, hisCA, hcc]

/-- C4 witness: a concrete intermediate-CA issuance. -/
theorem sign_intermediate_constraints_witness :
    (signerCA0.sign extOk caTemplate0 profile0 "").template.maxPathLen = 1 ∧
    (signerCA0.sign extOk caTemplate0 profile0 "").template.dnsNames = [] :=
  sign_intermediate_constraints extOk signerCA0 caTemplate0 caTemplate0 parsedRoot0
    profile0 "" rfl rfl rfl

/-- C1 counterexample: on a bootstrap-ready signer, a failing signing
primitive returns `CertificateError/Unknown`, yet the CA state has changed
— the Go code assigns `s.ca = template` before invoking the primitive, so
the claim that a failed sign never mutates `caCertificate` is false. -/
theorem sign_error_mutates_ca_counterexample :
    (signer0.sign extCreateFail caTemplate0 profile0 "").result =
      .error { kind := .certificateError, reason := .unknown } ∧
    (signer0.sign extCreateFail caTemplate0 profile0 "").state.ca ≠ signer0.ca := by
  constructor
  · rfl
  · decide

/-- C1 amended: an erroring `sign` leaves `caCertificate` as it was —
except that when the engine held no CA certificate and the signing
primitive fails, `caCertificate` has been set to the guarded template (DNS
SANs cleared, path length at the sentinel); a bootstrap re-parse failure
stores the nil result of the parse, so the CA certificate is absent as
before. -/
theorem sign_error_preserves_ca_amended (ext : Externals) (s : Signer) (t : Certificate)
    (profile : SigningProfile) (serialSeq : String) (e : CFError)
    (herr : (s.sign ext t profile serialSeq).result = .error e) :
    (s.sign ext t profile serialSeq).state.ca = s.ca ∨
    (s.ca = none ∧ e = { kind := .certificateError, reason := .unknown } ∧
      (s.sign ext t profile serialSeq).state.ca =
        ((ext.fillTemplate t s.policy.default profile serialSeq).toOption.map
          fun t1 => { t1 with dnsNames := [], maxPathLen := MaxPathLen })) := by
  rcases hf : ext.fillTemplate t s.policy.default profile serialSeq with e1 | t1
  · left
    simp [Signer.sign, hf]
  · rcases hca : s.ca with _ | c
    · cases hisCA : t1.isCA
      · left
        simp [Signer.sign, hf, hca, hisCA]
      · rcases hcc : ext.createCertificate { t1 with dnsNames := [], maxPathLen := MaxPathLen }
          { t1 with dnsNames := [], maxPathLen := MaxPathLen } with _ | der
        · right
          rw [hisCA] at hcc
          simp [Signer.sign, hf, hca, hisCA, hcc, Except.toOption] at herr ⊢
          simp [herr]
        · rcases hp : ext.parseCertificate der with _ | parsed
          · left
            rw [hisCA] at hcc
            simp [Signer.sign, hf, hca, hisCA, hcc, hp]
          · rw [hisCA] at hcc
            simp [Signer.sign, hf, hca, hisCA, hcc, hp] at herr
    · cases hisCA : t1.isCA
      · rcases hcc : ext.createCertificate t1 c with _ | der
        · left
          simp [Signer.sign, hf, hca, hisCA, hcc]
        · left
          simp [Signer.sign, hf, hca, hisCA, hcc]
      · rcases hcc : ext.createCertificate { t1 with maxPathLen := 1, dnsNames := [] } c
          with _ | der
        · left
          rw [hisCA] at hcc
          simp [Signer.sign, hf, hca, hisCA, hcc]
        · left
          rw [hisCA] at hcc
          simp [Signer.sign, hf, hca, hisCA, hcc]

/-- C1 amended witness: the amended statement at the concrete failing
bootstrap input. -/
theorem sign_error_preserves_ca_amended_witness :
    (signer0.sign extCreateFail caTemplate0 profile0 "").state.ca = signer0.ca ∨
    (signer0.ca = none ∧
      ({ kind := .certificateError, reason := .unknown } : CFError) =
        { kind := .certificateError, reason := .unknown } ∧
      (signer0.sign extCreateFail caTemplate0 profile0 "").state.ca =
        ((extCreateFail.fillTemplate caTemplate0 signer0.policy.default profile0 "").toOption.map
          fun t1 => { t1 with dnsNames := [], maxPathLen := MaxPathLen })) :=
  sign_error_preserves_ca_amended extCreateFail signer0 caTemplate0 profile0 ""
    { kind := .certificateError, reason := .unknown } rfl

end CFSSL
